import Mathlib

/-!
Verification of the cloud-policy registration coordination workflow
(`chrome/browser/policy/cloud/cloud_policy_client_registration_helper.cc`).

The coordinator `CloudPolicyClientRegistrationHelper` chains three
asynchronous steps — access-token acquisition, user-info (hosted-domain)
lookup, and `CloudPolicyClient::Register` — and fires a zero-argument
completion callback exactly once per attempt.

Shallow embedding (non-Android build, the one carrying both token
strategies and the plain `StartRequest` call):

* `HelperState` carries the coordinator's members (`client_`,
  `token_service_helper_`, `login_token_helper_`, `user_info_fetcher_`,
  `oauth_access_token_`, `should_force_load_policy_`,
  `registration_type_`) plus observable bookkeeping: whether the
  coordinator sits in the `CloudPolicyClient` observer set (`observed`),
  how many times the completion callback ran (`callbackCount`), how many
  times `CloudPolicyClient::Register` was called (`registerCalls`), the
  external client's `is_registered()` flag (`clientRegistered`), and
  whether the destructor has run (`destroyed`).
* Each C++ member function becomes a function
  `HelperState → HelperState × List Act`; the `Act` list is the
  ordered trace of externally visible calls the function performs.
* `step` delivers one environment event (`Ev`) to the coordinator,
  guarded by `canDeliver`: a callback can only reach the coordinator
  through a live channel.  Token callbacks are bound into the owned
  helper objects (`scoped_ptr` members, freed on reset and in the
  destructor), user-info callbacks into the owned `UserInfoFetcher`, and
  client notifications require membership in the observer set; nothing
  is deliverable after destruction, since the destructor removes the
  observer and frees every owned helper.
* `run` folds a list of events from a post-`Start` state.
-/

/-- OAuth2 scope for the userinfo service (`kServiceScopeGetUserInfo` in the
source). -/
def kServiceScopeGetUserInfo : String :=
  "https://www.googleapis.com/auth/userinfo.email"

/-- The key under which the hosted-domain value is stored in the UserInfo
response (`kGetHostedDomainKey` in the source). -/
def kGetHostedDomainKey : String := "hd"

/-- External constant `GaiaConstants::kDeviceManagementServiceOAuth` from
google_apis/gaia (outside this repository); only its identity matters here,
not its value. -/
def kDeviceManagementServiceOAuth : String :=
  "device-management-service-oauth-scope"

/-- Externally visible calls the coordinator makes, in program order. -/
inductive Act where
  | addObserver
  | createTokenServiceHelper
  | createLoginTokenHelper
  | releaseTokenServiceHelper
  | releaseLoginTokenHelper
  | createUserInfoFetcher (access_token : String)
  | releaseUserInfoFetcher
  | removeObserver
  | clearClientPtr
  | runCompletionCallback
  | callRegister (rtype : Nat) (access_token : String)
  deriving DecidableEq, Repr

def Act.isRunCallback : Act → Bool
  | .runCompletionCallback => true
  | _ => false

def Act.isCallRegister : Act → Bool
  | .callRegister _ _ => true
  | _ => false

def Act.isCreateUserInfoFetcher : Act → Bool
  | .createUserInfoFetcher _ => true
  | _ => false

def Act.isRemoveObserver : Act → Bool
  | .removeObserver => true
  | _ => false

/-- State of one `CloudPolicyClientRegistrationHelper` instance together
with the observable bookkeeping described in the file header. -/
structure HelperState where
  client_ : Bool
  observed : Bool
  callbackCount : Nat
  token_service_helper_ : Bool
  login_token_helper_ : Bool
  user_info_fetcher_ : Bool
  oauth_access_token_ : String
  should_force_load_policy_ : Bool
  registration_type_ : Nat
  registerCalls : Nat
  clientRegistered : Bool
  destroyed : Bool
  deriving DecidableEq, Repr

/-- Constructor state: `context_` and `client_` set, no helpers, no
observer registration yet. -/
def initState (should_force_load_policy : Bool) (registration_type : Nat) :
    HelperState :=
  { client_ := true
    observed := false
    callbackCount := 0
    token_service_helper_ := false
    login_token_helper_ := false
    user_info_fetcher_ := false
    oauth_access_token_ := ""
    should_force_load_policy_ := should_force_load_policy
    registration_type_ := registration_type
    registerCalls := 0
    clientRegistered := false
    destroyed := false }

/-- `CloudPolicyClientRegistrationHelper::RequestCompleted`: if `client_`
is non-null, remove the observer, null `client_`, then run the callback. -/
def RequestCompleted (s : HelperState) : HelperState × List Act :=
  if s.client_ then
    ({ s with observed := false, client_ := false,
              callbackCount := s.callbackCount + 1 },
     [Act.removeObserver, Act.clearClientPtr,
      Act.runCompletionCallback])
  else
    (s, [])

/-- `CloudPolicyClientRegistrationHelper::StartRegistration`: attach as
observer, create the `TokenServiceHelper` and start the token fetch. -/
def StartRegistration (s : HelperState) : HelperState × List Act :=
  ({ s with observed := true, token_service_helper_ := true },
   [Act.addObserver, Act.createTokenServiceHelper])

/-- `CloudPolicyClientRegistrationHelper::StartRegistrationWithLoginToken`:
attach as observer, create the `LoginTokenHelper` and start the exchange. -/
def StartRegistrationWithLoginToken (s : HelperState) :
    HelperState × List Act :=
  ({ s with observed := true, login_token_helper_ := true },
   [Act.addObserver, Act.createLoginTokenHelper])

/-- `CloudPolicyClientRegistrationHelper::OnTokenFetched`: release both
token helpers; an empty token short-circuits to `RequestCompleted`, a
non-empty token is cached and a `UserInfoFetcher` is created and started. -/
def OnTokenFetched (s : HelperState) (access_token : String) :
    HelperState × List Act :=
  let s1 := { s with login_token_helper_ := false,
                     token_service_helper_ := false }
  let rel := [Act.releaseLoginTokenHelper,
              Act.releaseTokenServiceHelper]
  if access_token.isEmpty then
    let r := RequestCompleted s1
    (r.1, rel ++ r.2)
  else
    ({ s1 with oauth_access_token_ := access_token,
               user_info_fetcher_ := true },
     rel ++ [Act.createUserInfoFetcher access_token])

/-- `CloudPolicyClientRegistrationHelper::OnGetUserInfoFailure`: release
the fetcher, then `RequestCompleted`. -/
def OnGetUserInfoFailure (s : HelperState) : HelperState × List Act :=
  let s1 := { s with user_info_fetcher_ := false }
  let r := RequestCompleted s1
  (r.1, Act.releaseUserInfoFetcher :: r.2)

/-- `CloudPolicyClientRegistrationHelper::OnGetUserInfoSuccess`: release
the fetcher; skip registration when the response has no hosted-domain key
and policy load is not forced, or (NOTREACHED defensive branch) when the
client is already registered; otherwise call `Register` with the cached
token. `data` is the key set of the returned dictionary. -/
def OnGetUserInfoSuccess (s : HelperState) (data : List String) :
    HelperState × List Act :=
  let s1 := { s with user_info_fetcher_ := false }
  if !(data.contains kGetHostedDomainKey)
      && !s1.should_force_load_policy_ then
    let r := RequestCompleted s1
    (r.1, Act.releaseUserInfoFetcher :: r.2)
  else if s1.clientRegistered then
    let r := RequestCompleted s1
    (r.1, Act.releaseUserInfoFetcher :: r.2)
  else
    ({ s1 with registerCalls := s1.registerCalls + 1 },
     [Act.releaseUserInfoFetcher,
      Act.callRegister s1.registration_type_ s1.oauth_access_token_])

/-- `CloudPolicyClientRegistrationHelper::OnPolicyFetched`: ignored. -/
def OnPolicyFetched (s : HelperState) : HelperState × List Act := (s, [])

/-- `CloudPolicyClientRegistrationHelper::OnRegistrationStateChanged`:
`RequestCompleted`. -/
def OnRegistrationStateChanged (s : HelperState) :
    HelperState × List Act := RequestCompleted s

/-- `CloudPolicyClientRegistrationHelper::OnClientError`:
`RequestCompleted`. -/
def OnClientError (s : HelperState) : HelperState × List Act :=
  RequestCompleted s

/-- The destructor: remove the observer when `client_` is still set, then
(implicit C++ member destruction) free every owned helper. The completion
callback is not run here. -/
def Destructor (s : HelperState) : HelperState × List Act :=
  let r : HelperState × List Act :=
    if s.client_ then
      ({ s with observed := false }, [Act.removeObserver])
    else
      (s, [])
  ({ r.1 with destroyed := true,
              token_service_helper_ := false,
              login_token_helper_ := false,
              user_info_fetcher_ := false },
   r.2)

/-- Environment events that may be delivered to one coordinator. -/
inductive Ev where
  | tokenFetched (access_token : String)
  | userInfoSuccess (data : List String)
  | userInfoFailure
  | registrationStateChanged
  | clientError
  | policyFetched
  | externalRegistered
  | destroy
  deriving DecidableEq, Repr

/-- A callback can only reach the coordinator through a live channel:
token callbacks through an owned token helper, user-info callbacks through
the owned `UserInfoFetcher`, client notifications through observer-set
membership; nothing after destruction. -/
def canDeliver (s : HelperState) (e : Ev) : Bool :=
  !s.destroyed &&
    match e with
    | .tokenFetched _ => s.token_service_helper_ || s.login_token_helper_
    | .userInfoSuccess _ => s.user_info_fetcher_
    | .userInfoFailure => s.user_info_fetcher_
    | .registrationStateChanged => s.observed
    | .clientError => s.observed
    | .policyFetched => s.observed
    | .externalRegistered => true
    | .destroy => true

/-- Deliver one event; an undeliverable event leaves the state unchanged
and performs no action. `externalRegistered` models another subsystem
registering the shared `CloudPolicyClient`. -/
def step (s : HelperState) (e : Ev) : HelperState × List Act :=
  if canDeliver s e then
    match e with
    | .tokenFetched tok => OnTokenFetched s tok
    | .userInfoSuccess data => OnGetUserInfoSuccess s data
    | .userInfoFailure => OnGetUserInfoFailure s
    | .registrationStateChanged => OnRegistrationStateChanged s
    | .clientError => OnClientError s
    | .policyFetched => OnPolicyFetched s
    | .externalRegistered => ({ s with clientRegistered := true }, [])
    | .destroy => Destructor s
  else
    (s, [])

/-- Fold a list of events over the coordinator state. -/
def run : HelperState → List Ev → HelperState
  | s, [] => s
  | s, e :: es => run (step s e).1 es

/-- Which entry point started the attempt. -/
inductive StartMode where
  | tokenService
  | loginToken
  deriving DecidableEq, Repr

/-- Coordinator state right after the `Start…` call of the given mode. -/
def startState (mode : StartMode) (should_force_load_policy : Bool)
    (registration_type : Nat) : HelperState :=
  match mode with
  | .tokenService =>
      (StartRegistration
        (initState should_force_load_policy registration_type)).1
  | .loginToken =>
      (StartRegistrationWithLoginToken
        (initState should_force_load_policy registration_type)).1

/-- Number of async helpers currently outstanding. -/
def helperCount (s : HelperState) : Nat :=
  cond s.token_service_helper_ 1 0 + cond s.login_token_helper_ 1 0
    + cond s.user_info_fetcher_ 1 0

/-- Run invariant: the callback has run exactly once iff `client_` has been
nulled, observer-set membership coincides with a live uncompleted attempt,
and at most one helper is outstanding. -/
def CoordInv (s : HelperState) : Prop :=
  s.callbackCount = cond s.client_ 0 1
    ∧ s.observed = (s.client_ && !s.destroyed)
    ∧ helperCount s ≤ 1

/-- Outcome the external token service delivers for one request. -/
inductive TokenFetchOutcome where
  | success (access_token : String)
  | failure (error : Nat)
  deriving DecidableEq, Repr

/-- `TokenServiceHelper::OnGetTokenSuccess`: run the stored callback with
the access token. The list is the sequence of callback invocations. -/
def TokenServiceHelper.OnGetTokenSuccess (access_token : String) :
    List String := [access_token]

/-- `TokenServiceHelper::OnGetTokenFailure`: run the stored callback with
the empty-string sentinel. -/
def TokenServiceHelper.OnGetTokenFailure : List String := [""]

/-- Dispatch of the single consumer notification the token service
delivers per request to the matching `TokenServiceHelper` handler. -/
def TokenServiceHelper.deliver : TokenFetchOutcome → List String
  | .success t => TokenServiceHelper.OnGetTokenSuccess t
  | .failure _ => TokenServiceHelper.OnGetTokenFailure

/-- `LoginTokenHelper::OnGetTokenSuccess`: run the stored callback with
the access token. -/
def LoginTokenHelper.OnGetTokenSuccess (access_token : String) :
    List String := [access_token]

/-- `LoginTokenHelper::OnGetTokenFailure`: run the stored callback with
the empty-string sentinel. -/
def LoginTokenHelper.OnGetTokenFailure : List String := [""]

/-- Dispatch of the single consumer notification the OAuth2 access-token
fetcher delivers per request to the matching `LoginTokenHelper` handler. -/
def LoginTokenHelper.deliver : TokenFetchOutcome → List String
  | .success t => LoginTokenHelper.OnGetTokenSuccess t
  | .failure _ => LoginTokenHelper.OnGetTokenFailure

/-- The scoped-token request `TokenServiceHelper::FetchAccessToken` issues
through `OAuth2TokenService::StartRequest` on the non-Android build: only
the scope set; the username is not part of the request. -/
structure TokenServiceRequest where
  scopes : List String
  deriving DecidableEq, Repr

/-- `TokenServiceHelper::FetchAccessToken` (non-Android build): `none`
models the failed `DCHECK` (the caller must supply a username or the user
must be signed in already); otherwise the request with the fixed scope
set is issued. -/
def TokenServiceHelper.FetchAccessToken (username : String)
    (refreshTokenIsAvailable : Bool) : Option TokenServiceRequest :=
  if !username.isEmpty || refreshTokenIsAvailable then
    some { scopes := [kDeviceManagementServiceOAuth,
                      kServiceScopeGetUserInfo] }
  else
    none

theorem step_destroyed (s : HelperState) (e : Ev) (h : s.destroyed = true) :
    step s e = (s, []) := by
  simp [step, canDeliver, h]

theorem run_destroyed (s : HelperState) (es : List Ev)
    (h : s.destroyed = true) : run s es = s := by
  induction es with
  | nil => rfl
  | cons e es ih => rw [run, step_destroyed s e h]; exact ih

theorem run_append (s : HelperState) (es1 es2 : List Ev) :
    run s (es1 ++ es2) = run (run s es1) es2 := by
  induction es1 generalizing s with
  | nil => rfl
  | cons e es ih => rw [List.cons_append, run, run, ih]

theorem step_destroy_destroyed (s : HelperState) :
    ((step s Ev.destroy).1).destroyed = true := by
  by_cases h : s.destroyed = true
  · rw [step_destroyed s _ h]; exact h
  · simp [step, canDeliver, Destructor, h]

theorem RequestCompleted_inv (s : HelperState) (h : CoordInv s) :
    CoordInv (RequestCompleted s).1 := by
  obtain ⟨h1, h2, h3⟩ := h
  unfold CoordInv helperCount at *
  unfold RequestCompleted
  by_cases hc : s.client_ = true <;> simp_all

theorem OnTokenFetched_inv (s : HelperState) (t : String) (h : CoordInv s) :
    CoordInv (OnTokenFetched s t).1 := by
  obtain ⟨h1, h2, h3⟩ := h
  unfold OnTokenFetched
  by_cases he : t.isEmpty = true
  · simp only [he, if_true]
    refine RequestCompleted_inv _ ⟨h1, h2, ?_⟩
    unfold helperCount at *
    cases hu : s.user_info_fetcher_ <;> simp
  · simp only [he, if_false]
    unfold CoordInv helperCount at *
    simp_all

theorem OnGetUserInfoFailure_inv (s : HelperState) (h : CoordInv s) :
    CoordInv (OnGetUserInfoFailure s).1 := by
  obtain ⟨h1, h2, h3⟩ := h
  unfold OnGetUserInfoFailure
  refine RequestCompleted_inv _ ⟨h1, h2, ?_⟩
  unfold helperCount at *
  cases ht : s.token_service_helper_ <;> cases hl : s.login_token_helper_ <;>
    cases hu : s.user_info_fetcher_ <;> simp_all

theorem OnGetUserInfoSuccess_inv (s : HelperState) (data : List String)
    (h : CoordInv s) : CoordInv (OnGetUserInfoSuccess s data).1 := by
  obtain ⟨h1, h2, h3⟩ := h
  have hh : helperCount
      { s with user_info_fetcher_ := false } ≤ 1 := by
    unfold helperCount at *
    cases ht : s.token_service_helper_ <;> cases hl : s.login_token_helper_ <;>
      cases hu : s.user_info_fetcher_ <;> simp_all
  unfold OnGetUserInfoSuccess
  by_cases hk : (!(data.contains kGetHostedDomainKey)
      && !s.should_force_load_policy_) = true
  · simp only [hk, if_true]
    exact RequestCompleted_inv _ ⟨h1, h2, hh⟩
  · simp only [hk, if_false]
    by_cases hr : s.clientRegistered = true
    · simp only [hr, if_true]
      exact RequestCompleted_inv _ ⟨h1, h2, hh⟩
    · simp only [hr, if_false]
      exact ⟨h1, h2, hh⟩

theorem Destructor_inv (s : HelperState) (h : CoordInv s) :
    CoordInv (Destructor s).1 := by
  obtain ⟨h1, h2, h3⟩ := h
  unfold CoordInv helperCount at *
  unfold Destructor
  by_cases hc : s.client_ = true <;> simp_all

theorem step_inv (s : HelperState) (e : Ev) (h : CoordInv s) :
    CoordInv (step s e).1 := by
  unfold step
  by_cases hd : canDeliver s e = true
  · simp only [hd, if_true]
    cases e with
    | tokenFetched t => exact OnTokenFetched_inv s t h
    | userInfoSuccess data => exact OnGetUserInfoSuccess_inv s data h
    | userInfoFailure => exact OnGetUserInfoFailure_inv s h
    | registrationStateChanged => exact RequestCompleted_inv s h
    | clientError => exact RequestCompleted_inv s h
    | policyFetched => exact h
    | externalRegistered => exact h
    | destroy => exact Destructor_inv s h
  · simp only [hd, if_false]
    exact h

theorem startState_inv (m : StartMode) (f : Bool) (r : Nat) :
    CoordInv (startState m f r) := by
  cases m <;>
    simp [startState, StartRegistration, StartRegistrationWithLoginToken,
      initState, CoordInv, helperCount]

theorem run_inv (s : HelperState) (es : List Ev) (h : CoordInv s) :
    CoordInv (run s es) := by
  induction es generalizing s with
  | nil => exact h
  | cons e es ih => exact ih _ (step_inv s e h)

theorem RequestCompleted_client (s : HelperState) :
    (RequestCompleted s).1.client_ = false := by
  unfold RequestCompleted
  by_cases hc : s.client_ = true <;> simp_all

theorem RequestCompleted_frame (s : HelperState) :
    (RequestCompleted s).1.should_force_load_policy_
        = s.should_force_load_policy_
    ∧ (RequestCompleted s).1.registration_type_ = s.registration_type_
    ∧ (RequestCompleted s).1.registerCalls = s.registerCalls
    ∧ (RequestCompleted s).1.destroyed = s.destroyed
    ∧ (RequestCompleted s).1.token_service_helper_ = s.token_service_helper_
    ∧ (RequestCompleted s).1.login_token_helper_ = s.login_token_helper_
    ∧ (RequestCompleted s).1.user_info_fetcher_ = s.user_info_fetcher_ := by
  unfold RequestCompleted
  by_cases hc : s.client_ = true <;> simp_all

theorem step_frame (s : HelperState) (e : Ev) :
    (step s e).1.should_force_load_policy_ = s.should_force_load_policy_
    ∧ (step s e).1.registration_type_ = s.registration_type_ := by
  by_cases hd : canDeliver s e = true
  · cases e with
    | tokenFetched t =>
        simp only [step, hd, if_true]
        unfold OnTokenFetched
        by_cases he : t.isEmpty = true <;>
          simp_all [RequestCompleted_frame]
    | userInfoSuccess data =>
        simp only [step, hd, if_true]
        unfold OnGetUserInfoSuccess
        dsimp only
        split_ifs <;> simp [RequestCompleted_frame]
    | userInfoFailure =>
        simp only [step, hd, if_true]
        unfold OnGetUserInfoFailure
        simp [RequestCompleted_frame]
    | registrationStateChanged =>
        simp only [step, hd, if_true]
        exact ⟨(RequestCompleted_frame s).1, (RequestCompleted_frame s).2.1⟩
    | clientError =>
        simp only [step, hd, if_true]
        exact ⟨(RequestCompleted_frame s).1, (RequestCompleted_frame s).2.1⟩
    | policyFetched => simp [step, hd, OnPolicyFetched]
    | externalRegistered => simp [step, hd]
    | destroy =>
        simp only [step, hd, if_true]
        unfold Destructor
        by_cases hc : s.client_ = true <;> simp_all
  · simp [step, hd]

theorem step_registerCalls (s : HelperState) (e : Ev)
    (hf : s.should_force_load_policy_ = false)
    (he : ∀ data : List String, e = Ev.userInfoSuccess data →
      data.contains kGetHostedDomainKey = false) :
    (step s e).1.registerCalls = s.registerCalls := by
  by_cases hd : canDeliver s e = true
  · cases e with
    | tokenFetched t =>
        simp only [step, hd, if_true]
        unfold OnTokenFetched
        by_cases hemp : t.isEmpty = true <;>
          simp_all [RequestCompleted_frame]
    | userInfoSuccess data =>
        have hk := he data rfl
        simp only [step, hd, if_true]
        unfold OnGetUserInfoSuccess
        dsimp only
        split_ifs <;> simp_all [RequestCompleted_frame]
    | userInfoFailure =>
        simp only [step, hd, if_true]
        unfold OnGetUserInfoFailure
        simp [RequestCompleted_frame]
    | registrationStateChanged =>
        simp only [step, hd, if_true]
        exact (RequestCompleted_frame s).2.2.1
    | clientError =>
        simp only [step, hd, if_true]
        exact (RequestCompleted_frame s).2.2.1
    | policyFetched => simp [step, hd, OnPolicyFetched]
    | externalRegistered => simp [step, hd]
    | destroy =>
        simp only [step, hd, if_true]
        unfold Destructor
        by_cases hc : s.client_ = true <;> simp_all
  · simp [step, hd]

theorem run_registerCalls (s : HelperState) (es : List Ev)
    (hf : s.should_force_load_policy_ = false)
    (he : ∀ data : List String, Ev.userInfoSuccess data ∈ es →
      data.contains kGetHostedDomainKey = false) :
    (run s es).registerCalls = s.registerCalls := by
  induction es generalizing s with
  | nil => rfl
  | cons e es ih =>
      rw [run]
      have hf2 : (step s e).1.should_force_load_policy_ = false := by
        rw [(step_frame s e).1]; exact hf
      have h1 := ih (step s e).1 hf2
        (fun data hmem => he data (List.mem_cons_of_mem _ hmem))
      rw [h1]
      exact step_registerCalls s e hf
        (fun data heq => he data (heq ▸ List.mem_cons_self _ _))

/-- C1: after a single `StartRegistration` or
`StartRegistrationWithLoginToken` call, over every sequence of events
(token callback with any string, user-info success or failure, any
interleaving of `OnRegistrationStateChanged`, `OnClientError` and
`OnPolicyFetched`, external registration, destruction) the completion
callback runs at most once; when the attempt has reached completion
(`client_` nulled) without destruction it has run exactly once; from any
live uncompleted state one client notification completes it exactly once;
and the whole state is frozen from the destruction event on, so the
callback never runs after the coordinator is destroyed. -/
theorem C1_single_fire (m : StartMode) (f : Bool) (r : Nat)
    (es es2 : List Ev) :
    (run (startState m f r) es).callbackCount ≤ 1
    ∧ ((run (startState m f r) es).client_ = false →
        (run (startState m f r) es).destroyed = false →
        (run (startState m f r) es).callbackCount = 1)
    ∧ ((run (startState m f r) es).client_ = true →
        (run (startState m f r) es).destroyed = false →
        (run (startState m f r) (es ++ [Ev.clientError])).callbackCount = 1)
    ∧ run (startState m f r) (es ++ Ev.destroy :: es2)
        = run (startState m f r) (es ++ [Ev.destroy]) := by
  obtain ⟨h1, h2, h3⟩ := run_inv (startState m f r) es (startState_inv m f r)
  refine ⟨?_, ?_, ?_, ?_⟩
  · rw [h1]
    cases hc : (run (startState m f r) es).client_ <;> simp
  · intro hc hd
    rw [h1, hc]
    rfl
  · intro hc hd
    rw [run_append]
    show (step (run (startState m f r) es) Ev.clientError).1.callbackCount = 1
    have hdel : canDeliver (run (startState m f r) es) Ev.clientError
        = true := by
      simp [canDeliver, hd, h2, hc]
    simp [step, hdel, OnClientError, RequestCompleted, hc, h1]
  · rw [show es ++ Ev.destroy :: es2 = (es ++ [Ev.destroy]) ++ es2 by simp]
    rw [run_append]
    exact run_destroyed _ es2
      (by rw [run_append]; exact step_destroy_destroyed _)

/-- Closed instances of C1: the empty-token trace completes with exactly
one callback invocation, a client-error notification right after the
start completes with exactly one callback invocation, and events after
destruction leave the state unchanged. -/
theorem C1_single_fire_witness :
    (run (startState StartMode.tokenService false 0)
        [Ev.tokenFetched ""]).callbackCount = 1
    ∧ (run (startState StartMode.loginToken false 0)
        ([] ++ [Ev.clientError])).callbackCount = 1
    ∧ run (startState StartMode.tokenService false 0)
        ([Ev.tokenFetched ""] ++ Ev.destroy :: [Ev.clientError])
        = run (startState StartMode.tokenService false 0)
            ([Ev.tokenFetched ""] ++ [Ev.destroy]) :=
  ⟨(C1_single_fire StartMode.tokenService false 0 [Ev.tokenFetched ""]
      []).2.1 (by decide) (by decide),
   (C1_single_fire StartMode.loginToken false 0 [] []).2.2.1
      (by decide) (by decide),
   (C1_single_fire StartMode.tokenService false 0 [Ev.tokenFetched ""]
      [Ev.clientError]).2.2.2⟩

/-- C3: if the token callback delivers the empty string, the coordinator
goes straight to completion: no `UserInfoFetcher` is constructed, no
`Register` call is made, and the payload-free completion callback runs
exactly once. -/
theorem C3_empty_token (m : StartMode) (f : Bool) (r : Nat) :
    (step (startState m f r) (Ev.tokenFetched "")).2.countP
        Act.isCreateUserInfoFetcher = 0
    ∧ (step (startState m f r) (Ev.tokenFetched "")).2.countP
        Act.isCallRegister = 0
    ∧ (step (startState m f r) (Ev.tokenFetched "")).2.countP
        Act.isRunCallback = 1
    ∧ (step (startState m f r) (Ev.tokenFetched "")).1.user_info_fetcher_
        = false
    ∧ (step (startState m f r) (Ev.tokenFetched "")).1.registerCalls = 0
    ∧ (step (startState m f r) (Ev.tokenFetched "")).1.callbackCount = 1
    ∧ (step (startState m f r) (Ev.tokenFetched "")).1.client_ = false := by
  have hemp : "".isEmpty = true := rfl
  cases m <;>
    simp [startState, StartRegistration, StartRegistrationWithLoginToken,
      initState, step, canDeliver, OnTokenFetched, RequestCompleted, hemp,
      List.countP_cons, List.countP_nil, Act.isCreateUserInfoFetcher,
      Act.isCallRegister, Act.isRunCallback]

/-- C6: each token-acquisition helper runs the caller-supplied string
callback exactly once per delivered fetch outcome, and on any failure the
callback receives the empty string. -/
theorem C6_token_helper_contract :
    (∀ o : TokenFetchOutcome, (TokenServiceHelper.deliver o).length = 1
      ∧ (LoginTokenHelper.deliver o).length = 1)
    ∧ (∀ e : Nat,
        TokenServiceHelper.deliver (TokenFetchOutcome.failure e) = [""])
    ∧ (∀ e : Nat,
        LoginTokenHelper.deliver (TokenFetchOutcome.failure e) = [""]) := by
  refine ⟨fun o => ?_, fun e => rfl, fun e => rfl⟩
  cases o <;>
    simp [TokenServiceHelper.deliver, LoginTokenHelper.deliver,
      TokenServiceHelper.OnGetTokenSuccess, LoginTokenHelper.OnGetTokenSuccess,
      TokenServiceHelper.OnGetTokenFailure, LoginTokenHelper.OnGetTokenFailure]

/-- C7: reaching the completed state a second time is a no-op: after
`RequestCompleted` has run once, a further invocation changes no state and
performs no action, so the completion callback does not run again. -/
theorem C7_completed_idempotent (s : HelperState) :
    RequestCompleted (RequestCompleted s).1 = ((RequestCompleted s).1, []) := by
  unfold RequestCompleted
  by_cases hc : s.client_ = true <;> simp [hc]

/-- C2: with `should_force_load_policy_` false, an attempt in which no
user-info success response carries the hosted-domain key never calls
`CloudPolicyClient::Register`; with it true, delivering a user-info
success to a pending fetch issues exactly one `Register` call regardless
of whether the hosted-domain key is present, provided the client is not
already registered (the separately specified defensive branch). -/
theorem C2_domain_gate (m : StartMode) (r : Nat) (es : List Ev)
    (s : HelperState) (data : List String) :
    ((∀ d : List String, Ev.userInfoSuccess d ∈ es →
        d.contains kGetHostedDomainKey = false) →
      (run (startState m false r) es).registerCalls = 0)
    ∧ (s.user_info_fetcher_ = true → s.destroyed = false →
        s.clientRegistered = false → s.should_force_load_policy_ = true →
        (step s (Ev.userInfoSuccess data)).2.countP Act.isCallRegister
          = 1) := by
  constructor
  · intro he
    have hf : (startState m false r).should_force_load_policy_ = false := by
      cases m <;> rfl
    have h0 : (startState m false r).registerCalls = 0 := by
      cases m <;> rfl
    rw [run_registerCalls (startState m false r) es hf he, h0]
  · intro hu hd hr hf
    have hdel : canDeliver s (Ev.userInfoSuccess data) = true := by
      simp [canDeliver, hu, hd]
    simp only [step, hdel, if_true]
    unfold OnGetUserInfoSuccess
    dsimp only
    rw [if_neg, if_neg]
    · simp [List.countP_cons, Act.isCallRegister]
    · simp [hr]
    · simp [hf]

/-- Closed instances of C2: a force-off attempt whose user-info response
has no hosted-domain key ends with zero `Register` calls, and a force-on
attempt issues exactly one `Register` call on a hosted-domain-free
response. -/
theorem C2_domain_gate_witness :
    (run (startState StartMode.tokenService false 0)
        [Ev.tokenFetched "t", Ev.userInfoSuccess []]).registerCalls = 0
    ∧ (step (run (startState StartMode.tokenService true 0)
          [Ev.tokenFetched "tok"])
        (Ev.userInfoSuccess [])).2.countP Act.isCallRegister = 1 :=
  ⟨(C2_domain_gate StartMode.tokenService 0
      [Ev.tokenFetched "t", Ev.userInfoSuccess []] (initState false 0) []).1
      (by
        intro d hd
        simp at hd
        subst hd
        rfl),
   (C2_domain_gate StartMode.tokenService 0 []
      (run (startState StartMode.tokenService true 0) [Ev.tokenFetched "tok"])
      []).2 (by decide) (by decide) (by decide) (by decide)⟩

/-- C4: observer-set membership always equals "attempt live and not
destroyed", so after completion by any path or after destruction the
coordinator no longer appears in the observer set; destroying the
coordinator mid-flight removes the observer exactly once, runs no
completion callback and leaves the callback count untouched. -/
theorem C4_destruction (m : StartMode) (f : Bool) (r : Nat) (es : List Ev) :
    (run (startState m f r) es).observed
        = ((run (startState m f r) es).client_
            && !(run (startState m f r) es).destroyed)
    ∧ ((run (startState m f r) es).client_ = false
          ∨ (run (startState m f r) es).destroyed = true →
        (run (startState m f r) es).observed = false)
    ∧ ((run (startState m f r) es).destroyed = false →
        (run (startState m f r) es).client_ = true →
        (step (run (startState m f r) es) Ev.destroy).2.countP
            Act.isRemoveObserver = 1
        ∧ (step (run (startState m f r) es) Ev.destroy).2.countP
            Act.isRunCallback = 0
        ∧ (step (run (startState m f r) es) Ev.destroy).1.observed = false
        ∧ (step (run (startState m f r) es) Ev.destroy).1.callbackCount
            = (run (startState m f r) es).callbackCount) := by
  obtain ⟨h1, h2, h3⟩ := run_inv (startState m f r) es (startState_inv m f r)
  refine ⟨h2, ?_, ?_⟩
  · intro h
    rcases h with h | h <;> rw [h2, h] <;> simp
  · intro hd hc
    have hdel : canDeliver (run (startState m f r) es) Ev.destroy = true := by
      simp [canDeliver, hd]
    simp [step, hdel, Destructor, hc, List.countP_cons,
      Act.isRemoveObserver, Act.isRunCallback]

/-- Closed instances of C4: after an empty-token completion the
coordinator is out of the observer set, and destroying right after the
start removes the observer once without running the callback. -/
theorem C4_destruction_witness :
    (run (startState StartMode.tokenService false 0)
        [Ev.tokenFetched ""]).observed = false
    ∧ ((step (run (startState StartMode.loginToken false 0) [])
          Ev.destroy).2.countP Act.isRemoveObserver = 1
        ∧ (step (run (startState StartMode.loginToken false 0) [])
            Ev.destroy).2.countP Act.isRunCallback = 0
        ∧ (step (run (startState StartMode.loginToken false 0) [])
            Ev.destroy).1.observed = false
        ∧ (step (run (startState StartMode.loginToken false 0) [])
            Ev.destroy).1.callbackCount
          = (run (startState StartMode.loginToken false 0) []).callbackCount) :=
  ⟨(C4_destruction StartMode.tokenService false 0
      [Ev.tokenFetched ""]).2.1 (Or.inl (by decide)),
   (C4_destruction StartMode.loginToken false 0 []).2.2
      (by decide) (by decide)⟩

/-- C5: on a user-info success that passes the domain gate while the
client is already registered, the coordinator does not call `Register`
and still completes the attempt: the completion callback runs once and
`client_` is cleared, instead of the attempt hanging. -/
theorem C5_already_registered (s : HelperState) (data : List String)
    (hu : s.user_info_fetcher_ = true) (hd : s.destroyed = false)
    (hc : s.client_ = true) (hr : s.clientRegistered = true)
    (hg : (data.contains kGetHostedDomainKey
        || s.should_force_load_policy_) = true) :
    (step s (Ev.userInfoSuccess data)).2.countP Act.isCallRegister = 0
    ∧ (step s (Ev.userInfoSuccess data)).2.countP Act.isRunCallback = 1
    ∧ (step s (Ev.userInfoSuccess data)).1.client_ = false := by
  have hdel : canDeliver s (Ev.userInfoSuccess data) = true := by
    simp [canDeliver, hu, hd]
  simp only [step, hdel, if_true]
  unfold OnGetUserInfoSuccess
  dsimp only
  cases h1 : data.contains kGetHostedDomainKey with
  | true =>
      simp [h1, hr, RequestCompleted, hc, List.countP_cons,
        Act.isCallRegister, Act.isRunCallback]
  | false =>
      have hf : s.should_force_load_policy_ = true := by simp_all
      simp [h1, hf, hr, RequestCompleted, hc, List.countP_cons,
        Act.isCallRegister, Act.isRunCallback]

/-- Closed instance of C5: an externally registered client at the
user-info decision point yields completion without a `Register` call. -/
theorem C5_already_registered_witness :
    (step (run (startState StartMode.tokenService false 0)
          [Ev.tokenFetched "tok", Ev.externalRegistered])
        (Ev.userInfoSuccess ["hd"])).2.countP Act.isCallRegister = 0
    ∧ (step (run (startState StartMode.tokenService false 0)
          [Ev.tokenFetched "tok", Ev.externalRegistered])
        (Ev.userInfoSuccess ["hd"])).2.countP Act.isRunCallback = 1
    ∧ (step (run (startState StartMode.tokenService false 0)
          [Ev.tokenFetched "tok", Ev.externalRegistered])
        (Ev.userInfoSuccess ["hd"])).1.client_ = false :=
  C5_already_registered
    (run (startState StartMode.tokenService false 0)
      [Ev.tokenFetched "tok", Ev.externalRegistered]) ["hd"]
    (by decide) (by decide) (by decide) (by decide) (by decide)

/-- C8: at most one async helper is outstanding on the coordinator at any
point of an attempt; the token callback releases both token helpers
whether the token is empty or not, and when a `UserInfoFetcher` is
created, both releases precede the creation (the creation is the final
action of the handler); the `UserInfoFetcher` is released as the first
action of both its success and failure callbacks, before any completion
action. -/
theorem C8_phase_exclusivity (m : StartMode) (f : Bool) (r : Nat)
    (es : List Ev) (s : HelperState) (t : String) (data : List String) :
    helperCount (run (startState m f r) es) ≤ 1
    ∧ (OnTokenFetched s t).1.token_service_helper_ = false
    ∧ (OnTokenFetched s t).1.login_token_helper_ = false
    ∧ (t.isEmpty = false →
        (OnTokenFetched s t).2 = [Act.releaseLoginTokenHelper,
          Act.releaseTokenServiceHelper, Act.createUserInfoFetcher t])
    ∧ (OnGetUserInfoFailure s).2.head? = some Act.releaseUserInfoFetcher
    ∧ (OnGetUserInfoFailure s).1.user_info_fetcher_ = false
    ∧ (OnGetUserInfoSuccess s data).2.head? = some Act.releaseUserInfoFetcher
    ∧ (OnGetUserInfoSuccess s data).1.user_info_fetcher_ = false := by
  obtain ⟨h1, h2, h3⟩ := run_inv (startState m f r) es (startState_inv m f r)
  refine ⟨h3, ?_, ?_, ?_, ?_, ?_, ?_, ?_⟩
  · unfold OnTokenFetched
    dsimp only
    split_ifs <;> simp [RequestCompleted_frame]
  · unfold OnTokenFetched
    dsimp only
    split_ifs <;> simp [RequestCompleted_frame]
  · intro ht
    unfold OnTokenFetched
    dsimp only
    simp [ht]
  · unfold OnGetUserInfoFailure RequestCompleted
    dsimp only
    split_ifs <;> rfl
  · unfold OnGetUserInfoFailure
    dsimp only
    simp [RequestCompleted_frame]
  · unfold OnGetUserInfoSuccess RequestCompleted
    dsimp only
    split_ifs <;> rfl
  · unfold OnGetUserInfoSuccess
    dsimp only
    split_ifs <;> simp [RequestCompleted_frame]

/-- Closed instance of C8: delivering a non-empty token releases both
helpers and only then creates the `UserInfoFetcher`. -/
theorem C8_phase_exclusivity_witness :
    (OnTokenFetched (startState StartMode.tokenService false 0) "tok").2
      = [Act.releaseLoginTokenHelper, Act.releaseTokenServiceHelper,
         Act.createUserInfoFetcher "tok"] :=
  (C8_phase_exclusivity StartMode.tokenService false 0 []
    (startState StartMode.tokenService false 0) "tok" []).2.2.2.1 (by decide)

/-- C9: `RequestCompleted` removes the observer and nulls the stored
client pointer strictly before it runs the completion callback (its
action order is remove-observer, clear-pointer, run-callback); after it
has run, `client_` is always null, so a destructor invocation after
completion touches the policy client in no way — in particular there is
no second `RemoveObserver`. -/
theorem C9_complete_before_callback (s : HelperState) :
    (s.client_ = true →
      (RequestCompleted s).2 = [Act.removeObserver, Act.clearClientPtr,
        Act.runCompletionCallback])
    ∧ (RequestCompleted s).1.client_ = false
    ∧ (Destructor (RequestCompleted s).1).2 = [] := by
  unfold RequestCompleted Destructor
  by_cases hc : s.client_ = true <;> simp [hc]

/-- Closed instance of C9 at a freshly started coordinator. -/
theorem C9_complete_before_callback_witness :
    (RequestCompleted (startState StartMode.tokenService false 0)).2
        = [Act.removeObserver, Act.clearClientPtr,
           Act.runCompletionCallback]
    ∧ (Destructor
        (RequestCompleted (startState StartMode.tokenService false 0)).1).2
      = [] :=
  ⟨(C9_complete_before_callback
      (startState StartMode.tokenService false 0)).1 (by decide),
   (C9_complete_before_callback
      (startState StartMode.tokenService false 0)).2.2⟩

/-- C10: on the non-Android build `TokenServiceHelper::FetchAccessToken`
issues a request determined solely by the fixed scope pair: any two
usernames, each satisfying the precondition (non-empty username or an
available refresh token), produce the identical request — and hence the
same outcome under any deterministic token-service response — with the
username feeding only the precondition assertion. -/
theorem C10_username_noninterference (u1 u2 : String) (rta : Bool)
    (h1 : (!u1.isEmpty || rta) = true) (h2 : (!u2.isEmpty || rta) = true) :
    TokenServiceHelper.FetchAccessToken u1 rta
        = TokenServiceHelper.FetchAccessToken u2 rta
    ∧ TokenServiceHelper.FetchAccessToken u1 rta
        = some { scopes := [kDeviceManagementServiceOAuth,
                            kServiceScopeGetUserInfo] }
    ∧ ∀ respond : Option TokenServiceRequest → Option String,
        respond (TokenServiceHelper.FetchAccessToken u1 rta)
          = respond (TokenServiceHelper.FetchAccessToken u2 rta) := by
  unfold TokenServiceHelper.FetchAccessToken
  rw [h1, h2]
  exact ⟨rfl, rfl, fun respond => rfl⟩

/-- Closed instance of C10: a named user and the empty username with an
available refresh token produce the identical scoped-token request. -/
theorem C10_username_noninterference_witness :
    TokenServiceHelper.FetchAccessToken "alice" true
      = TokenServiceHelper.FetchAccessToken "" true :=
  (C10_username_noninterference "alice" "" true (by decide) (by decide)).1
